import Mathlib

/-
Shallow embedding of mreiferson/go-simplelog.

The repository source (src/simplelog.go) contains three near-duplicate
variants of the `simplelog` package, separated by document markers:

  * Variant1 (lines 1-122):   `SetLevel(interface{}) error`, `Log` gated by
    `level >= l.level`, no terminal detection (color codes always emitted),
    level switch with no default (unknown levels get empty label/color).
  * Variant2 (lines 123-271): adds `istty`/`isatty` terminal detection,
    `parseLevel` with an INFO/green fallback, `Log` gated by an early
    `if level < l.level { return }`.
  * Variant3 (lines 272-388): `SetLevel(int)` only, per-logger convenience
    methods Debug/Info/Warning/Error, and a `Log` gated by `l.level >= level`
    (comparison direction opposite to the other two variants).

Output is modelled as the list of lines a call writes to stderr (empty when
suppressed, a singleton when emitted).  `fmt.Sprintf(s, args...)` is modelled
by passing the already-formatted message string; `time.Now()` by an explicit
DateTime argument.  The sync.Mutex fields only serialize concurrent access
and have no sequential semantics, so they are not modelled.
-/

namespace SimpleLog

/-- Level constants: `DEBUG = iota; INFO; WARNING; ERROR` (Go `int`). -/
def DEBUG : Int := 0

/-- INFO level constant (1). -/
def INFO : Int := 1

/-- WARNING level constant (2). -/
def WARNING : Int := 2

/-- ERROR level constant (3). -/
def ERROR : Int := 3

/-- ANSI color constant `red = "\033[0;31;49m"`. -/
def red : String := "\x1b[0;31;49m"

/-- ANSI color constant `green = "\033[0;32;49m"`. -/
def green : String := "\x1b[0;32;49m"

/-- ANSI color constant `yellow = "\033[0;33;49m"`. -/
def yellow : String := "\x1b[0;33;49m"

/-- ANSI color constant `blue = "\033[0;34;49m"`. -/
def blue : String := "\x1b[0;34;49m"

/-- ANSI reset constant `reset = "\033[0m"`. -/
def reset : String := "\x1b[0m"

/-- The ASCII escape byte 0x1b that starts every ANSI escape sequence. -/
def esc : Char := Char.ofNat 27

/-- A wall-clock instant as decomposed by `dt.Date()`, `dt.Clock()` and
`dt.Nanosecond()` in the Go source. -/
structure DateTime where
  year : Nat
  month : Nat
  day : Nat
  hour : Nat
  minute : Nat
  second : Nat
  nanosecond : Nat
deriving DecidableEq, Repr

/-- Ranges `time.Now()` guarantees for the components (year bounded to four
digits, month 1-12, day 1-31, 24-hour clock, nanoseconds below 1e9). -/
def ValidDT (dt : DateTime) : Prop :=
  dt.year ≤ 9999 ∧ 1 ≤ dt.month ∧ dt.month ≤ 12 ∧ 1 ≤ dt.day ∧ dt.day ≤ 31 ∧
  dt.hour < 24 ∧ dt.minute < 60 ∧ dt.second < 60 ∧ dt.nanosecond < 1000000000

instance (dt : DateTime) : Decidable (ValidDT dt) := by
  unfold ValidDT; infer_instance

/-- Exactly `w` decimal characters: the `w` least significant digits of `n`,
most significant first. -/
def padDigits : Nat → Nat → List Char
  | 0, _ => []
  | w + 1, n => padDigits w (n / 10) ++ [Nat.digitChar (n % 10)]

/-- Go's `%0wd` formatting verb for a non-negative integer: zero-pad to
width `w`; a number needing more than `w` digits is printed in full. -/
def pad0 (w n : Nat) : String :=
  if n < 10 ^ w then String.mk (padDigits w n) else Nat.repr n

/-- The timestamp built by every variant's `Log`:
`fmt.Sprintf("%04d-%02d-%02d %02d:%02d:%02d.%06d", year, month, day, hour,
minute, second, dt.Nanosecond()/1e3)`.  Division by 1000 is Go integer
division, i.e. truncation. -/
def fmtTimestamp (dt : DateTime) : String :=
  pad0 4 dt.year ++ "-" ++ pad0 2 dt.month ++ "-" ++ pad0 2 dt.day ++ " " ++
  pad0 2 dt.hour ++ ":" ++ pad0 2 dt.minute ++ ":" ++ pad0 2 dt.second ++ "." ++
  pad0 6 (dt.nanosecond / 1000)

/-- Go's `strings.ToLower` restricted to the ASCII case mapping, which is all
the four level names exercise. -/
def toLowerGo (s : String) : String :=
  String.mk (s.data.map Char.toLower)

/-- The dynamic `lvl interface{}` parameter of `SetLevel`: a Go `int`, a Go
`string`, or a value of any other dynamic type (the type switch's default). -/
inductive LevelArg where
  | int : Int → LevelArg
  | str : String → LevelArg
  | other : LevelArg
deriving DecidableEq

namespace Variant1

/-- Logger of variant 1: a mutex (not modelled) plus `level int`. -/
structure Logger where
  level : Int
deriving DecidableEq, Repr

/-- The shared default logger installed by `init()`: `&Logger{level: INFO}`. -/
def defaultLogger : Logger := { level := INFO }

/-- Constructor `NewLogger(level int) *Logger`. -/
def NewLogger (level : Int) : Logger := { level := level }

/-- Method `(l *Logger) SetLevel(lvl interface{}) error`.  Returns the updated
logger together with the returned error (`none` for `nil`). -/
def Logger.SetLevel (l : Logger) (lvl : LevelArg) : Logger × Option String :=
  match lvl with
  | .int i => ({ l with level := i }, none)
  | .str s =>
    let t := toLowerGo s
    if t = "debug" then ({ l with level := DEBUG }, none)
    else if t = "info" then ({ l with level := INFO }, none)
    else if t = "warning" then ({ l with level := WARNING }, none)
    else if t = "error" then ({ l with level := ERROR }, none)
    else (l, some "invalid level")
  | .other => (l, some "invalid level")

/-- Method `(l *Logger) Log(level int, s string, args ...interface{})` of
variant 1: gate `level >= l.level`; the level switch has no default, so an
unknown level leaves `color` and `levelTxt` as empty strings; the line is
always wrapped in `color`/`reset` (no terminal detection in this variant).
Returns the list of lines written to stderr. -/
def Logger.Log (l : Logger) (level : Int) (dt : DateTime) (msg : String) :
    List String :=
  if level ≥ l.level then
    let colorTxt : String × String :=
      if level = DEBUG then (blue, "DEBUG")
      else if level = INFO then (green, "INFO")
      else if level = WARNING then (yellow, "WARNING")
      else if level = ERROR then (red, "ERROR")
      else ("", "")
    [colorTxt.1 ++ "[" ++ colorTxt.2 ++ " " ++ fmtTimestamp dt ++ "] " ++
      msg ++ reset ++ "\n"]
  else []

/-- Package-level `func SetLevel(lvl interface{})`: forwards to the default
logger's method and discards its returned error.  `st` is the current state
of the default logger. -/
def SetLevel (st : Logger) (lvl : LevelArg) : Logger :=
  (st.SetLevel lvl).1

/-- Package-level `func Debug(s string, args ...interface{})`. -/
def Debug (st : Logger) (dt : DateTime) (msg : String) : List String :=
  st.Log DEBUG dt msg

/-- Package-level `func Info(s string, args ...interface{})`. -/
def Info (st : Logger) (dt : DateTime) (msg : String) : List String :=
  st.Log INFO dt msg

/-- Package-level `func Warning(s string, args ...interface{})`. -/
def Warning (st : Logger) (dt : DateTime) (msg : String) : List String :=
  st.Log WARNING dt msg

/-- Package-level `func Error(s string, args ...interface{})`. -/
def Error (st : Logger) (dt : DateTime) (msg : String) : List String :=
  st.Log ERROR dt msg

/-- Package-level `func Log(level int, s string, args ...interface{})`. -/
def Log (st : Logger) (level : Int) (dt : DateTime) (msg : String) :
    List String :=
  st.Log level dt msg

end Variant1

namespace Variant2

/-- Logger of variant 2: a mutex (not modelled) plus `level int`. -/
structure Logger where
  level : Int
deriving DecidableEq, Repr

/-- Constructor `NewLogger(level int) *Logger`. -/
def NewLogger (level : Int) : Logger := { level := level }

/-- Function `parseLevel(level int) (string, string)`: color and label for a
level, falling back to `(green, "INFO")` for unrecognized levels. -/
def parseLevel (level : Int) : String × String :=
  if level = DEBUG then (blue, "DEBUG")
  else if level = INFO then (green, "INFO")
  else if level = WARNING then (yellow, "WARNING")
  else if level = ERROR then (red, "ERROR")
  else (green, "INFO")

/-- Function `isatty(f *os.File) bool`: on GOOS other than "darwin" and
"linux" it returns false unconditionally; on those two platforms it returns
whether the `TIOCGPGRP` ioctl on the descriptor succeeded (errno 0), which we
take as an abstract boolean `probe`. -/
def isatty (goos : String) (probe : Bool) : Bool :=
  if goos = "darwin" ∨ goos = "linux" then probe else false

/-- Process-wide state installed by variant 2's `init()`: the default logger
`&Logger{level: INFO}` and the cached `istty = isatty(os.Stderr)` flag. -/
structure GState where
  defaultLogger : Logger
  istty : Bool
deriving DecidableEq, Repr

/-- Variant 2's `init()`: evaluates `isatty` once and caches the result. -/
def initState (goos : String) (probe : Bool) : GState :=
  { defaultLogger := { level := INFO }, istty := isatty goos probe }

/-- Method `(l *Logger) SetLevel(lvl interface{}) error` (identical text to
variant 1's). -/
def Logger.SetLevel (l : Logger) (lvl : LevelArg) : Logger × Option String :=
  match lvl with
  | .int i => ({ l with level := i }, none)
  | .str s =>
    let t := toLowerGo s
    if t = "debug" then ({ l with level := DEBUG }, none)
    else if t = "info" then ({ l with level := INFO }, none)
    else if t = "warning" then ({ l with level := WARNING }, none)
    else if t = "error" then ({ l with level := ERROR }, none)
    else (l, some "invalid level")
  | .other => (l, some "invalid level")

/-- Method `(l *Logger) Log(...)` of variant 2: early return when
`level < l.level`; `parseLevel` supplies prefix color and label; when the
cached `istty` flag is false both the color prefix and the reset postfix are
replaced by empty strings.  Returns the list of lines written to stderr. -/
def Logger.Log (l : Logger) (tty : Bool) (level : Int) (dt : DateTime)
    (msg : String) : List String :=
  if level < l.level then []
  else
    let pl := parseLevel level
    let pre : String := if !tty then "" else pl.1
    let post : String := if !tty then "" else reset
    [pre ++ "[" ++ pl.2 ++ " " ++ fmtTimestamp dt ++ "] " ++ msg ++ post ++
      "\n"]

/-- Package-level `func SetLevel(lvl interface{})` of variant 2: forwards to
the default logger's method, discarding its returned error; the cached
`istty` flag is untouched. -/
def SetLevel (st : GState) (lvl : LevelArg) : GState :=
  { st with defaultLogger := (st.defaultLogger.SetLevel lvl).1 }

/-- Package-level `func Debug(...)` of variant 2. -/
def Debug (st : GState) (dt : DateTime) (msg : String) : List String :=
  st.defaultLogger.Log st.istty DEBUG dt msg

/-- Package-level `func Info(...)` of variant 2. -/
def Info (st : GState) (dt : DateTime) (msg : String) : List String :=
  st.defaultLogger.Log st.istty INFO dt msg

/-- Package-level `func Warning(...)` of variant 2. -/
def Warning (st : GState) (dt : DateTime) (msg : String) : List String :=
  st.defaultLogger.Log st.istty WARNING dt msg

/-- Package-level `func Error(...)` of variant 2. -/
def Error (st : GState) (dt : DateTime) (msg : String) : List String :=
  st.defaultLogger.Log st.istty ERROR dt msg

/-- Package-level `func Log(...)` of variant 2. -/
def Log (st : GState) (level : Int) (dt : DateTime) (msg : String) :
    List String :=
  st.defaultLogger.Log st.istty level dt msg

end Variant2

namespace Variant3

/-- Logger of variant 3: a mutex (not modelled) plus `level int`. -/
structure Logger where
  level : Int
deriving DecidableEq, Repr

/-- The shared default logger installed by `init()`: `&Logger{level: INFO}`. -/
def defaultLogger : Logger := { level := INFO }

/-- Constructor `NewLogger(level int) *Logger`. -/
def NewLogger (level : Int) : Logger := { level := level }

/-- Method `(l *Logger) SetLevel(level int)` of variant 3: stores the integer
verbatim, no validation, no error value at all. -/
def Logger.SetLevel (l : Logger) (level : Int) : Logger :=
  { l with level := level }

/-- Method `(l *Logger) Log(...)` of variant 3: gate `l.level >= level`
(comparison direction opposite to variants 1 and 2); the level switch has no
default, so an unknown level leaves `color` and `levelTxt` empty; the line is
always wrapped in `color`/`reset`.  Returns the list of lines written. -/
def Logger.Log (l : Logger) (level : Int) (dt : DateTime) (msg : String) :
    List String :=
  if l.level ≥ level then
    let colorTxt : String × String :=
      if level = DEBUG then (blue, "DEBUG")
      else if level = INFO then (green, "INFO")
      else if level = WARNING then (yellow, "WARNING")
      else if level = ERROR then (red, "ERROR")
      else ("", "")
    [colorTxt.1 ++ "[" ++ colorTxt.2 ++ " " ++ fmtTimestamp dt ++ "] " ++
      msg ++ reset ++ "\n"]
  else []

/-- Method `(l *Logger) Debug(...)`: forwards to `Log(DEBUG, ...)`. -/
def Logger.Debug (l : Logger) (dt : DateTime) (msg : String) : List String :=
  l.Log DEBUG dt msg

/-- Method `(l *Logger) Info(...)`: forwards to `Log(INFO, ...)`. -/
def Logger.Info (l : Logger) (dt : DateTime) (msg : String) : List String :=
  l.Log INFO dt msg

/-- Method `(l *Logger) Warning(...)`: forwards to `Log(WARNING, ...)`. -/
def Logger.Warning (l : Logger) (dt : DateTime) (msg : String) : List String :=
  l.Log WARNING dt msg

/-- Method `(l *Logger) Error(...)`: forwards to `Log(ERROR, ...)`. -/
def Logger.Error (l : Logger) (dt : DateTime) (msg : String) : List String :=
  l.Log ERROR dt msg

/-- Package-level `func SetLevel(level int)` of variant 3. -/
def SetLevel (st : Logger) (level : Int) : Logger :=
  st.SetLevel level

/-- Package-level `func Debug(...)` of variant 3 (forwards through the
method `defaultLogger.Debug`). -/
def Debug (st : Logger) (dt : DateTime) (msg : String) : List String :=
  st.Debug dt msg

/-- Package-level `func Info(...)` of variant 3. -/
def Info (st : Logger) (dt : DateTime) (msg : String) : List String :=
  st.Info dt msg

/-- Package-level `func Warning(...)` of variant 3. -/
def Warning (st : Logger) (dt : DateTime) (msg : String) : List String :=
  st.Warning dt msg

/-- Package-level `func Error(...)` of variant 3. -/
def Error (st : Logger) (dt : DateTime) (msg : String) : List String :=
  st.Error dt msg

/-- Package-level `func Log(...)` of variant 3. -/
def Log (st : Logger) (level : Int) (dt : DateTime) (msg : String) :
    List String :=
  st.Log level dt msg

end Variant3

/-- Observer for the timestamp format: a 26-character list shaped
`YYYY-MM-DD HH:MM:SS.ffffff` with 4-2-2 date digits, 2-2-2 time digits and
exactly 6 fractional digits. -/
def timestampShapeChars : List Char → Bool
  | [y1, y2, y3, y4, p1, b1, b2, p2, d1, d2, p3, h1, h2, p4, m1, m2, p5, s1,
     s2, p6, f1, f2, f3, f4, f5, f6] =>
    y1.isDigit && y2.isDigit && y3.isDigit && y4.isDigit && p1 == '-' &&
    b1.isDigit && b2.isDigit && p2 == '-' && d1.isDigit && d2.isDigit &&
    p3 == ' ' && h1.isDigit && h2.isDigit && p4 == ':' && m1.isDigit &&
    m2.isDigit && p5 == ':' && s1.isDigit && s2.isDigit && p6 == '.' &&
    f1.isDigit && f2.isDigit && f3.isDigit && f4.isDigit && f5.isDigit &&
    f6.isDigit
  | _ => false

/-- Observer: shape check on a string. -/
def timestampShape (s : String) : Bool := timestampShapeChars s.data

/-- Observer: the natural number denoted by a list of decimal digit
characters (most significant first). -/
def digitsToNat (cs : List Char) : Nat :=
  cs.foldl (fun acc c => 10 * acc + (c.toNat - 48)) 0

theorem padDigits_length (w n : Nat) : (padDigits w n).length = w := by
  induction w generalizing n with
  | zero => rfl
  | succ w ih => simp [padDigits, ih]

theorem digitChar_isDigit {d : Nat} (h : d < 10) :
    (Nat.digitChar d).isDigit = true := by
  interval_cases d <;> decide

theorem digitChar_toNat {d : Nat} (h : d < 10) :
    (Nat.digitChar d).toNat = 48 + d := by
  interval_cases d <;> decide

theorem mem_padDigits_isDigit {w n : Nat} {c : Char} (h : c ∈ padDigits w n) :
    c.isDigit = true := by
  induction w generalizing n with
  | zero => simp [padDigits] at h
  | succ w ih =>
    simp only [padDigits, List.mem_append, List.mem_singleton] at h
    rcases h with h | h
    · exact ih h
    · subst h; exact digitChar_isDigit (Nat.mod_lt _ (by norm_num))

theorem mod_ten_pow_succ (n w : Nat) :
    n % 10 ^ (w + 1) = 10 * (n / 10 % 10 ^ w) + n % 10 := by
  have hq : n = 10 * (n / 10) + n % 10 := (Nat.div_add_mod n 10).symm
  have hsplit : n / 10 = 10 ^ w * (n / 10 / 10 ^ w) + n / 10 % 10 ^ w :=
    (Nat.div_add_mod _ _).symm
  have hlt1 : n / 10 % 10 ^ w < 10 ^ w :=
    Nat.mod_lt _ (Nat.pos_pow_of_pos _ (by norm_num))
  have hlt2 : n % 10 < 10 := Nat.mod_lt _ (by norm_num)
  calc n % 10 ^ (w + 1)
      = (10 ^ (w + 1) * (n / 10 / 10 ^ w) +
          (10 * (n / 10 % 10 ^ w) + n % 10)) % 10 ^ (w + 1) := by
        congr 1
        rw [pow_succ]
        nlinarith [hq, hsplit]
    _ = (10 * (n / 10 % 10 ^ w) + n % 10) % 10 ^ (w + 1) := by
        rw [Nat.mul_add_mod]
    _ = 10 * (n / 10 % 10 ^ w) + n % 10 := by
        apply Nat.mod_eq_of_lt
        rw [pow_succ]
        nlinarith

theorem digitsToNat_padDigits (w n : Nat) :
    digitsToNat (padDigits w n) = n % 10 ^ w := by
  induction w generalizing n with
  | zero => simp [padDigits, digitsToNat, Nat.mod_one]
  | succ w ih =>
    have hstep : digitsToNat (padDigits w (n / 10) ++ [Nat.digitChar (n % 10)]) =
        10 * digitsToNat (padDigits w (n / 10)) +
          ((Nat.digitChar (n % 10)).toNat - 48) := by
      simp [digitsToNat, List.foldl_append]
    rw [padDigits, hstep, ih, digitChar_toNat (Nat.mod_lt _ (by norm_num)),
      mod_ten_pow_succ]
    omega

theorem list_explode2 {α : Type} (l : List α) (h : l.length = 2) :
    ∃ a b, l = [a, b] := by
  match l, h with
  | [a, b], _ => exact ⟨a, b, rfl⟩

theorem list_explode4 {α : Type} (l : List α) (h : l.length = 4) :
    ∃ a b c d, l = [a, b, c, d] := by
  match l, h with
  | [a, b, c, d], _ => exact ⟨a, b, c, d, rfl⟩

theorem list_explode6 {α : Type} (l : List α) (h : l.length = 6) :
    ∃ a b c d e f, l = [a, b, c, d, e, f] := by
  match l, h with
  | [a, b, c, d, e, f], _ => exact ⟨a, b, c, d, e, f, rfl⟩

theorem timestamp_chars_spec
    (ys bs ds hs ms ss fs : List Char)
    (hy : ys.length = 4) (hb : bs.length = 2) (hd : ds.length = 2)
    (hh : hs.length = 2) (hm : ms.length = 2) (hs2 : ss.length = 2)
    (hf : fs.length = 6)
    (gy : ∀ c ∈ ys, c.isDigit = true) (gb : ∀ c ∈ bs, c.isDigit = true)
    (gd : ∀ c ∈ ds, c.isDigit = true) (gh : ∀ c ∈ hs, c.isDigit = true)
    (gm : ∀ c ∈ ms, c.isDigit = true) (gs : ∀ c ∈ ss, c.isDigit = true)
    (gf : ∀ c ∈ fs, c.isDigit = true) :
    timestampShapeChars (ys ++ '-' :: (bs ++ '-' :: (ds ++ ' ' ::
      (hs ++ ':' :: (ms ++ ':' :: (ss ++ '.' :: fs)))))) = true ∧
    (ys ++ '-' :: (bs ++ '-' :: (ds ++ ' ' :: (hs ++ ':' ::
      (ms ++ ':' :: (ss ++ '.' :: fs)))))).drop 20 = fs := by
  obtain ⟨y1, y2, y3, y4, rfl⟩ := list_explode4 _ hy
  obtain ⟨b1, b2, rfl⟩ := list_explode2 _ hb
  obtain ⟨d1, d2, rfl⟩ := list_explode2 _ hd
  obtain ⟨h1, h2, rfl⟩ := list_explode2 _ hh
  obtain ⟨m1, m2, rfl⟩ := list_explode2 _ hm
  obtain ⟨s1, s2, rfl⟩ := list_explode2 _ hs2
  obtain ⟨f1, f2, f3, f4, f5, f6, rfl⟩ := list_explode6 _ hf
  refine ⟨?_, by simp⟩
  simp only [List.cons_append, List.nil_append, timestampShapeChars]
  simp [gy y1 (by simp), gy y2 (by simp), gy y3 (by simp), gy y4 (by simp),
    gb b1 (by simp), gb b2 (by simp), gd d1 (by simp), gd d2 (by simp),
    gh h1 (by simp), gh h2 (by simp), gm m1 (by simp), gm m2 (by simp),
    gs s1 (by simp), gs s2 (by simp), gf f1 (by simp), gf f2 (by simp),
    gf f3 (by simp), gf f4 (by simp), gf f5 (by simp), gf f6 (by simp)]

theorem fmtTimestamp_data (dt : DateTime) (h : ValidDT dt) :
    (fmtTimestamp dt).data =
      padDigits 4 dt.year ++ '-' :: (padDigits 2 dt.month ++ '-' ::
      (padDigits 2 dt.day ++ ' ' :: (padDigits 2 dt.hour ++ ':' ::
      (padDigits 2 dt.minute ++ ':' :: (padDigits 2 dt.second ++ '.' ::
      padDigits 6 (dt.nanosecond / 1000)))))) := by
  obtain ⟨h1, h2, h3, h4, h5, h6, h7, h8, h9⟩ := h
  have e1 : dt.year < 10000 := by omega
  have e2 : dt.month < 100 := by omega
  have e3 : dt.day < 100 := by omega
  have e4 : dt.hour < 100 := by omega
  have e5 : dt.minute < 100 := by omega
  have e6 : dt.second < 100 := by omega
  have e7 : dt.nanosecond / 1000 < 1000000 := by omega
  simp [fmtTimestamp, pad0, e1, e2, e3, e4, e5, e6, e7, String.data_append]

theorem esc_notin_fmtTimestamp (dt : DateTime) (h : ValidDT dt) :
    esc ∉ (fmtTimestamp dt).data := by
  rw [fmtTimestamp_data dt h]
  intro hmem
  simp only [List.mem_append, List.mem_cons] at hmem
  rcases hmem with
    h1 | h1 | h1 | h1 | h1 | h1 | h1 | h1 | h1 | h1 | h1 | h1 | h1 <;>
    first
      | exact absurd (mem_padDigits_isDigit h1) (by decide)
      | exact absurd h1 (by decide)

theorem esc_notin_label (level : Int) :
    esc ∉ ((Variant2.parseLevel level).2).data := by
  unfold Variant2.parseLevel
  split_ifs <;> decide

/-- Claim C1 (code_bug evidence).  In variants 1 and 2, `Log(level, ...)`
writes exactly one line when `level >= threshold` and zero lines otherwise.
Variant 3's gate is reversed (`l.level >= level`): at threshold INFO a call
at level ERROR (above the threshold) writes zero lines, while at threshold
ERROR a call at level DEBUG (below the threshold) writes one line —
contradicting the claim. -/
theorem claim_C1 :
    (∀ (l : Variant1.Logger) (level : Int) (dt : DateTime) (msg : String),
      (Variant1.Logger.Log l level dt msg).length =
        if level ≥ l.level then 1 else 0) ∧
    (∀ (l : Variant2.Logger) (tty : Bool) (level : Int) (dt : DateTime)
      (msg : String),
      (Variant2.Logger.Log l tty level dt msg).length =
        if level ≥ l.level then 1 else 0) ∧
    (∀ (dt : DateTime) (msg : String),
      Variant3.Logger.Log { level := INFO } ERROR dt msg = [] ∧
      (Variant3.Logger.Log { level := ERROR } DEBUG dt msg).length = 1) := by
  refine ⟨?_, ?_, ?_⟩
  · intro l level dt msg
    rw [Variant1.Logger.Log]
    split <;> simp_all
  · intro l tty level dt msg
    simp only [Variant2.Logger.Log]
    by_cases hc : level < l.level
    · rw [if_pos hc, if_neg (show ¬level ≥ l.level by omega)]
      rfl
    · rw [if_neg hc, if_pos (show level ≥ l.level by omega)]
      rfl
  · intro dt msg
    constructor
    · rw [Variant3.Logger.Log]
      norm_num [INFO, ERROR]
    · rw [Variant3.Logger.Log]
      norm_num [ERROR, DEBUG]

/-- Claim C2.  `SetLevel` with a string whose lower-casing is "debug",
"info", "warning" or "error" (so the original string in any letter case)
sets the threshold to 0, 1, 2, 3 respectively and returns no error; any
other string returns the "invalid level" error and leaves the logger
exactly unchanged.  Stated for both variants that have the string form. -/
theorem claim_C2 (s : String) :
    (toLowerGo s = "debug" →
      (∀ l : Variant1.Logger, l.SetLevel (.str s) = ({ level := 0 }, none)) ∧
      (∀ l : Variant2.Logger, l.SetLevel (.str s) = ({ level := 0 }, none))) ∧
    (toLowerGo s = "info" →
      (∀ l : Variant1.Logger, l.SetLevel (.str s) = ({ level := 1 }, none)) ∧
      (∀ l : Variant2.Logger, l.SetLevel (.str s) = ({ level := 1 }, none))) ∧
    (toLowerGo s = "warning" →
      (∀ l : Variant1.Logger, l.SetLevel (.str s) = ({ level := 2 }, none)) ∧
      (∀ l : Variant2.Logger, l.SetLevel (.str s) = ({ level := 2 }, none))) ∧
    (toLowerGo s = "error" →
      (∀ l : Variant1.Logger, l.SetLevel (.str s) = ({ level := 3 }, none)) ∧
      (∀ l : Variant2.Logger, l.SetLevel (.str s) = ({ level := 3 }, none))) ∧
    (toLowerGo s ≠ "debug" → toLowerGo s ≠ "info" → toLowerGo s ≠ "warning" →
      toLowerGo s ≠ "error" →
      (∀ l : Variant1.Logger, l.SetLevel (.str s) = (l, some "invalid level")) ∧
      (∀ l : Variant2.Logger,
        l.SetLevel (.str s) = (l, some "invalid level"))) := by
  refine ⟨?_, ?_, ?_, ?_, ?_⟩
  · intro h
    constructor <;> intro l <;>
      simp [Variant1.Logger.SetLevel, Variant2.Logger.SetLevel, h, DEBUG]
  · intro h
    constructor <;> intro l <;>
      simp [Variant1.Logger.SetLevel, Variant2.Logger.SetLevel, h, INFO]
  · intro h
    constructor <;> intro l <;>
      simp [Variant1.Logger.SetLevel, Variant2.Logger.SetLevel, h, WARNING]
  · intro h
    constructor <;> intro l <;>
      simp [Variant1.Logger.SetLevel, Variant2.Logger.SetLevel, h, ERROR]
  · intro h1 h2 h3 h4
    constructor <;> intro l <;>
      simp [Variant1.Logger.SetLevel, Variant2.Logger.SetLevel, h1, h2, h3, h4]

/-- Claim C2 witness: a mixed-case recognized name, an upper-case recognized
name, and an unrecognized name at concrete loggers. -/
theorem claim_C2_witness :
    Variant1.Logger.SetLevel { level := 3 } (.str "DeBuG") =
      ({ level := 0 }, none) ∧
    Variant2.Logger.SetLevel { level := 0 } (.str "ERROR") =
      ({ level := 3 }, none) ∧
    Variant1.Logger.SetLevel { level := 2 } (.str "verbose") =
      ({ level := 2 }, some "invalid level") :=
  ⟨((claim_C2 "DeBuG").1 (by decide)).1 _,
   ((claim_C2 "ERROR").2.2.2.1 (by decide)).2 _,
   ((claim_C2 "verbose").2.2.2.2 (by decide) (by decide) (by decide)
     (by decide)).1 _⟩

/-- Claim C3 (amended).  In variant 2 — the only variant with terminal
detection — when the cached tty flag is false no escape byte 0x1b occurs in
any emitted line (for a message that itself contains none), and when the
flag is true every emitted line starts with the `parseLevel` color of its
level and ends with the reset code before the newline; `parseLevel` maps
the four named levels to blue, green, yellow and red. -/
theorem claim_C3 :
    (∀ (l : Variant2.Logger) (level : Int) (dt : DateTime) (msg : String),
      ValidDT dt → esc ∉ msg.data →
      ∀ line ∈ Variant2.Logger.Log l false level dt msg, esc ∉ line.data) ∧
    (∀ (l : Variant2.Logger) (level : Int) (dt : DateTime) (msg : String),
      l.level ≤ level →
      Variant2.Logger.Log l true level dt msg =
        [(Variant2.parseLevel level).1 ++
          ("[" ++ (Variant2.parseLevel level).2 ++ " " ++ fmtTimestamp dt ++
            "] " ++ msg) ++ reset ++ "\n"]) ∧
    Variant2.parseLevel DEBUG = (blue, "DEBUG") ∧
    Variant2.parseLevel INFO = (green, "INFO") ∧
    Variant2.parseLevel WARNING = (yellow, "WARNING") ∧
    Variant2.parseLevel ERROR = (red, "ERROR") := by
  refine ⟨?_, ?_, rfl, rfl, rfl, rfl⟩
  · intro l level dt msg hdt hmsg line hline
    simp only [Variant2.Logger.Log] at hline
    by_cases hc : level < l.level
    · simp [hc] at hline
    · rw [if_neg hc] at hline
      simp only [Bool.not_false, if_pos, List.mem_singleton] at hline
      subst hline
      simp only [String.data_append, List.mem_append]
      push_neg
      refine ⟨⟨⟨⟨⟨⟨⟨⟨?_, ?_⟩, ?_⟩, ?_⟩, ?_⟩, ?_⟩, ?_⟩, ?_⟩, ?_⟩
      · decide
      · decide
      · exact esc_notin_label level
      · decide
      · exact esc_notin_fmtTimestamp dt hdt
      · decide
      · exact hmsg
      · decide
      · decide
  · intro l level dt msg hge
    simp only [Variant2.Logger.Log]
    rw [if_neg (show ¬level < l.level by omega)]
    simp [String.append_assoc]

/-- Claim C3 witness: at a non-terminal destination the emitted WARNING line
contains no 0x1b byte; at a terminal destination the line is color-wrapped. -/
theorem claim_C3_witness :
    esc ∉ ((Variant2.Logger.Log { level := 1 } false 2
      ⟨2024, 5, 17, 12, 34, 56, 555555999⟩ "ok").headD "").data ∧
    Variant2.Logger.Log { level := 1 } true 2
      ⟨2024, 5, 17, 12, 34, 56, 555555999⟩ "ok" =
      [(Variant2.parseLevel 2).1 ++
        ("[" ++ (Variant2.parseLevel 2).2 ++ " " ++
          fmtTimestamp ⟨2024, 5, 17, 12, 34, 56, 555555999⟩ ++ "] " ++ "ok") ++
        reset ++ "\n"] :=
  ⟨claim_C3.1 { level := 1 } 2 ⟨2024, 5, 17, 12, 34, 56, 555555999⟩ "ok"
    (by decide) (by decide) _ (by decide),
   claim_C3.2.1 { level := 1 } 2 ⟨2024, 5, 17, 12, 34, 56, 555555999⟩ "ok"
    (by decide)⟩

/-- Claim C3 counterexample.  Variants 1 and 3 have no terminal detection:
their emitted lines contain the escape byte 0x1b unconditionally, so in
particular also when the destination stream is not a terminal.  The claim
"no ANSI escape byte appears anywhere in any emitted line when the
destination is not a terminal" is therefore false for the repository. -/
theorem claim_C3_cex :
    esc ∈ (((Variant1.Logger.Log { level := 1 } 1
      ⟨2024, 5, 17, 12, 34, 56, 555555999⟩ "x").headD "").data) ∧
    esc ∈ (((Variant3.Logger.Log { level := 1 } 1
      ⟨2024, 5, 17, 12, 34, 56, 555555999⟩ "x").headD "").data) := by
  decide

/-- Claim C4 (amended).  In variant 2, `parseLevel` sends every integer
outside {0,1,2,3} to the INFO label and green color, and a gate-passing
`Log` call at such a level emits one line with the INFO label.  (In
variants 1 and 3 the fallback is an empty label and empty color instead —
see the counterexample.) -/
theorem claim_C4 :
    (∀ level : Int, level ≠ DEBUG → level ≠ INFO → level ≠ WARNING →
      level ≠ ERROR → Variant2.parseLevel level = (green, "INFO")) ∧
    (∀ (l : Variant2.Logger) (tty : Bool) (level : Int) (dt : DateTime)
      (msg : String),
      l.level ≤ level → level ≠ DEBUG → level ≠ INFO → level ≠ WARNING →
      level ≠ ERROR →
      Variant2.Logger.Log l tty level dt msg =
        [(if !tty then "" else green) ++ "[" ++ "INFO" ++ " " ++
          fmtTimestamp dt ++ "] " ++ msg ++ (if !tty then "" else reset) ++
          "\n"]) := by
  constructor
  · intro level h0 h1 h2 h3
    simp [Variant2.parseLevel, h0, h1, h2, h3]
  · intro l tty level dt msg hge h0 h1 h2 h3
    simp only [Variant2.Logger.Log]
    rw [if_neg (show ¬level < l.level by omega)]
    simp [Variant2.parseLevel, h0, h1, h2, h3]

/-- Claim C4 witness: level 7 at a threshold-1 logger emits the INFO-labelled
green line in variant 2. -/
theorem claim_C4_witness :
    Variant2.Logger.Log { level := 1 } true 7
      ⟨2024, 5, 17, 12, 34, 56, 555555999⟩ "m" =
      [(if !true then "" else green) ++ "[" ++ "INFO" ++ " " ++
        fmtTimestamp ⟨2024, 5, 17, 12, 34, 56, 555555999⟩ ++ "] " ++ "m" ++
        (if !true then "" else reset) ++ "\n"] :=
  claim_C4.2 { level := 1 } true 7 ⟨2024, 5, 17, 12, 34, 56, 555555999⟩ "m"
    (by decide) (by decide) (by decide) (by decide) (by decide)

/-- Claim C4 counterexample.  In variant 1 a gate-passing call at the
unrecognized level 5 emits a line that contains no character `I` at all —
so certainly not the INFO label the claim prescribes (the switch has no
default there, leaving label and color empty). -/
theorem claim_C4_cex :
    (Variant1.Logger.Log { level := 0 } 5
      ⟨2024, 5, 17, 12, 34, 56, 555555999⟩ "x").length = 1 ∧
    'I' ∉ (((Variant1.Logger.Log { level := 0 } 5
      ⟨2024, 5, 17, 12, 34, 56, 555555999⟩ "x").headD "INFO").data) := by
  decide

/-- Claim C5 (code_bug evidence).  `SetLevel` stores any integer verbatim
with no validation and no error in all three variants.  In variants 1 and 2
a threshold of 99 suppresses all four named levels and a threshold of -1
emits all four.  In variant 3 the inverted gate does the exact opposite:
threshold 99 still emits (shown at ERROR) and threshold -1 suppresses
(shown at DEBUG), contradicting the claim. -/
theorem claim_C5 :
    (∀ (l : Variant1.Logger) (i : Int),
      Variant1.Logger.SetLevel l (.int i) = ({ level := i }, none)) ∧
    (∀ (l : Variant2.Logger) (i : Int),
      Variant2.Logger.SetLevel l (.int i) = ({ level := i }, none)) ∧
    (∀ (l : Variant3.Logger) (i : Int),
      Variant3.Logger.SetLevel l i = { level := i }) ∧
    (∀ (level : Int) (dt : DateTime) (msg : String),
      level = DEBUG ∨ level = INFO ∨ level = WARNING ∨ level = ERROR →
      Variant1.Logger.Log { level := 99 } level dt msg = [] ∧
      (Variant1.Logger.Log { level := -1 } level dt msg).length = 1 ∧
      Variant2.Logger.Log { level := 99 } false level dt msg = [] ∧
      (Variant2.Logger.Log { level := -1 } false level dt msg).length = 1) ∧
    (∀ (dt : DateTime) (msg : String),
      (Variant3.Logger.Log { level := 99 } ERROR dt msg).length = 1 ∧
      Variant3.Logger.Log { level := -1 } DEBUG dt msg = []) := by
  refine ⟨fun l i => rfl, fun l i => rfl, fun l i => rfl, ?_, ?_⟩
  · intro level dt msg hor
    rcases hor with rfl | rfl | rfl | rfl <;>
      refine ⟨?_, ?_, ?_, ?_⟩ <;>
      simp [Variant1.Logger.Log, Variant2.Logger.Log, DEBUG, INFO, WARNING,
        ERROR]
  · intro dt msg
    constructor
    · rw [Variant3.Logger.Log]
      norm_num [ERROR]
    · rw [Variant3.Logger.Log]
      norm_num [DEBUG]

/-- Claim C5 witness: the WARNING level at thresholds 99 and -1 in the two
variants whose gate matches the claim. -/
theorem claim_C5_witness :
    Variant1.Logger.Log { level := 99 } WARNING
      ⟨2024, 5, 17, 12, 34, 56, 555555999⟩ "m" = [] ∧
    (Variant1.Logger.Log { level := -1 } WARNING
      ⟨2024, 5, 17, 12, 34, 56, 555555999⟩ "m").length = 1 ∧
    Variant2.Logger.Log { level := 99 } false WARNING
      ⟨2024, 5, 17, 12, 34, 56, 555555999⟩ "m" = [] ∧
    (Variant2.Logger.Log { level := -1 } false WARNING
      ⟨2024, 5, 17, 12, 34, 56, 555555999⟩ "m").length = 1 :=
  claim_C5.2.2.2.1 WARNING ⟨2024, 5, 17, 12, 34, 56, 555555999⟩ "m"
    (Or.inr (Or.inr (Or.inl rfl)))

/-- Claim C6.  For every valid wall-clock instant the rendered timestamp has
the exact shape `YYYY-MM-DD HH:MM:SS.ffffff` (4-2-2 zero-padded date digits,
2-2-2 zero-padded time digits, exactly 6 fractional digits), and the 6
fractional digits denote `nanosecond / 1000` — the nanosecond value
truncated (Nat division), not rounded, to microseconds. -/
theorem claim_C6 (dt : DateTime) (h : ValidDT dt) :
    timestampShape (fmtTimestamp dt) = true ∧
    digitsToNat ((fmtTimestamp dt).data.drop 20) = dt.nanosecond / 1000 := by
  have hdata := fmtTimestamp_data dt h
  have spec := timestamp_chars_spec
    (padDigits 4 dt.year) (padDigits 2 dt.month) (padDigits 2 dt.day)
    (padDigits 2 dt.hour) (padDigits 2 dt.minute) (padDigits 2 dt.second)
    (padDigits 6 (dt.nanosecond / 1000))
    (padDigits_length _ _) (padDigits_length _ _) (padDigits_length _ _)
    (padDigits_length _ _) (padDigits_length _ _) (padDigits_length _ _)
    (padDigits_length _ _)
    (fun _ hc => mem_padDigits_isDigit hc) (fun _ hc => mem_padDigits_isDigit hc)
    (fun _ hc => mem_padDigits_isDigit hc) (fun _ hc => mem_padDigits_isDigit hc)
    (fun _ hc => mem_padDigits_isDigit hc) (fun _ hc => mem_padDigits_isDigit hc)
    (fun _ hc => mem_padDigits_isDigit hc)
  constructor
  · rw [timestampShape, hdata]
    exact spec.1
  · rw [hdata, spec.2, digitsToNat_padDigits]
    apply Nat.mod_eq_of_lt
    have h9 := h.2.2.2.2.2.2.2.2
    norm_num
    omega

/-- Claim C6 witness: a concrete instant whose nanosecond value 555555999
truncates to the fraction 555555 (rounding would give 555556). -/
theorem claim_C6_witness :
    timestampShape (fmtTimestamp ⟨2024, 5, 17, 12, 34, 56, 555555999⟩) =
      true ∧
    digitsToNat ((fmtTimestamp
      ⟨2024, 5, 17, 12, 34, 56, 555555999⟩).data.drop 20) =
      555555999 / 1000 :=
  claim_C6 ⟨2024, 5, 17, 12, 34, 56, 555555999⟩ (by decide)

/-- Claim C7 (amended).  The shared default logger starts with threshold
INFO in every variant, and each package-level free function forwards to the
corresponding method of that shared instance; package-level `SetLevel` of
variants 1 and 2, however, discards the error the method returns (its Go
signature returns nothing), so the method's `InvalidLevel` error is not
surfaced to callers of the free function. -/
theorem claim_C7 :
    Variant1.defaultLogger = { level := INFO } ∧
    Variant3.defaultLogger = { level := INFO } ∧
    (∀ (goos : String) (probe : Bool),
      (Variant2.initState goos probe).defaultLogger = { level := INFO }) ∧
    (∀ (st : Variant1.Logger) (lvl : LevelArg),
      Variant1.SetLevel st lvl = (Variant1.Logger.SetLevel st lvl).1) ∧
    (∀ (st : Variant2.GState) (lvl : LevelArg),
      Variant2.SetLevel st lvl =
        { st with
            defaultLogger :=
              (Variant2.Logger.SetLevel st.defaultLogger lvl).1 }) ∧
    (∀ (st : Variant1.Logger) (level : Int) (dt : DateTime) (msg : String),
      Variant1.Log st level dt msg = Variant1.Logger.Log st level dt msg) ∧
    (∀ (st : Variant1.Logger) (dt : DateTime) (msg : String),
      Variant1.Debug st dt msg = Variant1.Logger.Log st DEBUG dt msg ∧
      Variant1.Info st dt msg = Variant1.Logger.Log st INFO dt msg ∧
      Variant1.Warning st dt msg = Variant1.Logger.Log st WARNING dt msg ∧
      Variant1.Error st dt msg = Variant1.Logger.Log st ERROR dt msg) ∧
    (∀ (st : Variant2.GState) (level : Int) (dt : DateTime) (msg : String),
      Variant2.Log st level dt msg =
        Variant2.Logger.Log st.defaultLogger st.istty level dt msg) ∧
    (∀ (st : Variant2.GState) (dt : DateTime) (msg : String),
      Variant2.Debug st dt msg =
        Variant2.Logger.Log st.defaultLogger st.istty DEBUG dt msg ∧
      Variant2.Info st dt msg =
        Variant2.Logger.Log st.defaultLogger st.istty INFO dt msg ∧
      Variant2.Warning st dt msg =
        Variant2.Logger.Log st.defaultLogger st.istty WARNING dt msg ∧
      Variant2.Error st dt msg =
        Variant2.Logger.Log st.defaultLogger st.istty ERROR dt msg) ∧
    (∀ (st : Variant3.Logger) (level : Int),
      Variant3.SetLevel st level = Variant3.Logger.SetLevel st level) ∧
    (∀ (st : Variant3.Logger) (level : Int) (dt : DateTime) (msg : String),
      Variant3.Log st level dt msg = Variant3.Logger.Log st level dt msg) ∧
    (∀ (st : Variant3.Logger) (dt : DateTime) (msg : String),
      Variant3.Debug st dt msg = Variant3.Logger.Debug st dt msg ∧
      Variant3.Info st dt msg = Variant3.Logger.Info st dt msg ∧
      Variant3.Warning st dt msg = Variant3.Logger.Warning st dt msg ∧
      Variant3.Error st dt msg = Variant3.Logger.Error st dt msg) := by
  refine ⟨rfl, rfl, ?_, ?_, ?_, ?_, ?_, ?_, ?_, ?_, ?_, ?_⟩ <;> intros <;>
    first
      | rfl
      | exact ⟨rfl, rfl, rfl, rfl⟩

/-- Claim C7 counterexample.  On the string "bogus" the method returns the
"invalid level" error, but the package-level `SetLevel` of variants 1 and 2
returns only the (unchanged) state — its result carries no error component,
so its semantics are not identical to the method's as the claim requires. -/
theorem claim_C7_cex :
    (Variant1.Logger.SetLevel { level := 1 } (.str "bogus")).2 =
      some "invalid level" ∧
    Variant1.SetLevel { level := 1 } (.str "bogus") = { level := 1 } ∧
    Variant2.SetLevel ⟨{ level := 1 }, false⟩ (.str "bogus") =
      ⟨{ level := 1 }, false⟩ := by
  decide

/-- Claim C8.  `isatty` returns false unconditionally whenever GOOS is
neither "darwin" nor "linux"; `init` computes the flag once, and the only
state-mutating package operation (`SetLevel`) leaves the cached flag
untouched — no logging operation re-evaluates it. -/
theorem claim_C8 :
    (∀ (goos : String) (probe : Bool), goos ≠ "darwin" → goos ≠ "linux" →
      Variant2.isatty goos probe = false) ∧
    (∀ (goos : String) (probe : Bool),
      (Variant2.initState goos probe).istty = Variant2.isatty goos probe) ∧
    (∀ (st : Variant2.GState) (lvl : LevelArg),
      (Variant2.SetLevel st lvl).istty = st.istty) := by
  refine ⟨?_, fun _ _ => rfl, fun _ _ => rfl⟩
  intro goos probe h1 h2
  simp [Variant2.isatty, h1, h2]

/-- Claim C8 witness: on GOOS "windows" the probe result is ignored and the
detector returns false. -/
theorem claim_C8_witness :
    Variant2.isatty "windows" true = false :=
  claim_C8.1 "windows" true (by decide) (by decide)

/-- Claim C9.  Every level-named convenience operation — the variant 3
methods and the package-level free functions of all variants — produces
exactly the output of `Log` with the corresponding fixed level on the same
logger state. -/
theorem claim_C9 :
    (∀ (l : Variant3.Logger) (dt : DateTime) (msg : String),
      l.Debug dt msg = l.Log DEBUG dt msg ∧
      l.Info dt msg = l.Log INFO dt msg ∧
      l.Warning dt msg = l.Log WARNING dt msg ∧
      l.Error dt msg = l.Log ERROR dt msg) ∧
    (∀ (st : Variant1.Logger) (dt : DateTime) (msg : String),
      Variant1.Debug st dt msg = Variant1.Log st DEBUG dt msg ∧
      Variant1.Info st dt msg = Variant1.Log st INFO dt msg ∧
      Variant1.Warning st dt msg = Variant1.Log st WARNING dt msg ∧
      Variant1.Error st dt msg = Variant1.Log st ERROR dt msg) ∧
    (∀ (st : Variant2.GState) (dt : DateTime) (msg : String),
      Variant2.Debug st dt msg = Variant2.Log st DEBUG dt msg ∧
      Variant2.Info st dt msg = Variant2.Log st INFO dt msg ∧
      Variant2.Warning st dt msg = Variant2.Log st WARNING dt msg ∧
      Variant2.Error st dt msg = Variant2.Log st ERROR dt msg) ∧
    (∀ (st : Variant3.Logger) (dt : DateTime) (msg : String),
      Variant3.Debug st dt msg = Variant3.Log st DEBUG dt msg ∧
      Variant3.Info st dt msg = Variant3.Log st INFO dt msg ∧
      Variant3.Warning st dt msg = Variant3.Log st WARNING dt msg ∧
      Variant3.Error st dt msg = Variant3.Log st ERROR dt msg) := by
  refine ⟨?_, ?_, ?_, ?_⟩ <;> intros <;> exact ⟨rfl, rfl, rfl, rfl⟩

/-- Claim C10.  `SetLevel` on a value whose dynamic type is neither int nor
string (the type switch's default case) returns the "invalid level" error
and leaves the logger exactly unchanged, in both variants that take the
dynamic argument. -/
theorem claim_C10 :
    ∀ (l1 : Variant1.Logger) (l2 : Variant2.Logger),
      Variant1.Logger.SetLevel l1 .other = (l1, some "invalid level") ∧
      Variant2.Logger.SetLevel l2 .other = (l2, some "invalid level") :=
  fun _ _ => ⟨rfl, rfl⟩

end SimpleLog
